import Mathlib

/-!
Verification of the soprano XRD module (soprano/calculate/xrd/xrd.py).

Shallow embedding over ℚ.  Machine floats are modelled by exact rationals;
the transcendental steps of the pipeline (numpy sqrt / arcsin and the
constant pi) do not stay inside ℚ, so they enter the embedding as explicit
function parameters (`invdOf`, `theta2degOf`, `sq`): every theorem below
quantifies over them, hence holds for any actual floating-point
realisation of those maps.  External collaborators that are not part of
the two source files (soprano.utils geometry helpers, pyspglib, the
sel_rules table) are likewise parameters, following the interface the
code consumes.

Deviation notes are attached to the definitions where the ℚ model cannot
mirror IEEE behaviour exactly (division by zero, np.inf); the division
safety predicate `rescale_div_free` records which divisions the numpy
expressions actually perform, so those corners are reasoned about
explicitly instead of silently.
-/

/-- The XraySpectrum namedtuple (xrd.py line 21):
fields theta2, hkl, hkl_unique, invd, intensity, lambdax. -/
structure XraySpectrum where
  theta2 : List ℚ
  hkl : List (List (ℤ × ℤ × ℤ))
  hkl_unique : List (ℤ × ℤ × ℤ)
  invd : List ℚ
  intensity : List ℚ
  lambdax : ℚ
deriving DecidableEq

/-- The XraySpectrumData namedtuple (xrd.py line 24): (theta2, intensity). -/
structure XraySpectrumData where
  theta2 : List ℚ
  intensity : List ℚ
deriving DecidableEq

/-- np.round to `d` decimal digits.  Mathlib `round` rounds halves up while
numpy rounds halves to even; no statement below sits on a half-way value,
so the two agree at every input used. -/
def roundTo (d : ℕ) (q : ℚ) : ℚ := ((round (q * 10 ^ d) : ℤ) : ℚ) / 10 ^ d

/-- Python range(-m, m+1), ascending. -/
def rangeSym (m : ℕ) : List ℤ := (List.range (2 * m + 1)).map (fun i => (i : ℤ) - (m : ℕ))

/-- The dense hkl grid of xrd.py lines 209-216.  np.meshgrid with default
indexing makes the k index slowest, then h, then l, and reshape((3,-1))
flattens in C order, so the enumeration order is k-major, then h, then l. -/
def hklGrid (hm km lm : ℕ) : List (ℤ × ℤ × ℤ) :=
  (rangeSym km).flatMap (fun k =>
    (rangeSym hm).flatMap (fun h =>
      (rangeSym lm).map (fun l => (h, k, l))))

/-- Reflections surviving the two filters of xrd.py lines 224-230:
inv_d < inv_d_max together with inv_d > 0 (line 224), then the selection
rule (line 228).  `invdOf` stands for sqrt(hkl . M . hkl) of lines
217-219, a parameter because the square root leaves ℚ. -/
def pwdSelected (lambdax : ℚ) (invdOf : ℤ × ℤ × ℤ → ℚ)
    (selRule : ℤ × ℤ × ℤ → Bool) (bounds : ℕ × ℕ × ℕ) : List (ℤ × ℤ × ℤ) :=
  ((hklGrid bounds.1 bounds.2.1 bounds.2.2).filter
      (fun hkl => decide (invdOf hkl < 2 / lambdax) && decide (0 < invdOf hkl))).filter
    (fun hkl => selRule hkl)

/-- The rounded two-theta values of xrd.py lines 231-240.  `theta2degOf`
stands for the map invd -> 2*arcsin(invd/inv_d_max)*180/pi of lines
231-237 (arcsin and pi leave ℚ); the rounding to `digits` decimals of
line 237-238 is explicit. -/
def pwdRounded (digits : ℕ) (lambdax : ℚ) (invdOf : ℤ × ℤ × ℤ → ℚ)
    (theta2degOf : ℚ → ℚ) (selRule : ℤ × ℤ × ℤ → Bool) (bounds : ℕ × ℕ × ℕ) : List ℚ :=
  (pwdSelected lambdax invdOf selRule bounds).map
    (fun hkl => roundTo digits (theta2degOf (invdOf hkl)))

/-- np.unique values (xrd.py line 237): the distinct rounded angles in
ascending order. -/
def pwdVals (digits : ℕ) (lambdax : ℚ) (invdOf : ℤ × ℤ × ℤ → ℚ)
    (theta2degOf : ℚ → ℚ) (selRule : ℤ × ℤ × ℤ → Bool) (bounds : ℕ × ℕ × ℕ) : List ℚ :=
  (pwdRounded digits lambdax invdOf theta2degOf selRule bounds).toFinset.sort (· ≤ ·)

/-- np.unique return_index (xrd.py line 239): for each distinct value, the
index of its first occurrence in the pre-merge list. -/
def pwdFirstIdx (digits : ℕ) (lambdax : ℚ) (invdOf : ℤ × ℤ × ℤ → ℚ)
    (theta2degOf : ℚ → ℚ) (selRule : ℤ × ℤ × ℤ → Bool) (bounds : ℕ × ℕ × ℕ) : List ℕ :=
  (pwdVals digits lambdax invdOf theta2degOf selRule bounds).map
    (fun v => (pwdRounded digits lambdax invdOf theta2degOf selRule bounds).indexOf v)

/-- The XraySpectrum assembled by powder_peaks (xrd.py lines 242-253):
degeneracy groups from the inverse array, representatives and inverse
distances from the first-occurrence indices, intensities all zero. -/
def powder_peaks_core (digits : ℕ) (lambdax : ℚ) (invdOf : ℤ × ℤ × ℤ → ℚ)
    (theta2degOf : ℚ → ℚ) (selRule : ℤ × ℤ × ℤ → Bool) (bounds : ℕ × ℕ × ℕ) : XraySpectrum :=
  { theta2 := pwdVals digits lambdax invdOf theta2degOf selRule bounds
    hkl := (pwdVals digits lambdax invdOf theta2degOf selRule bounds).map
      (fun v => ((pwdSelected lambdax invdOf selRule bounds).zip
          (pwdRounded digits lambdax invdOf theta2degOf selRule bounds)).filterMap
        (fun p => if p.2 = v then some p.1 else none))
    hkl_unique := (pwdFirstIdx digits lambdax invdOf theta2degOf selRule bounds).map
      (fun i => (pwdSelected lambdax invdOf selRule bounds).getD i (0, 0, 0))
    invd := (pwdFirstIdx digits lambdax invdOf theta2degOf selRule bounds).map
      (fun i => ((pwdSelected lambdax invdOf selRule bounds).map invdOf).getD i 0)
    intensity := List.replicate
      (pwdVals digits lambdax invdOf theta2degOf selRule bounds).length 0
    lambdax := lambdax }

/-- Failure modes of powder_peaks: a ValueError (lines 174-176, 192-194) or
the RuntimeWarning raised at lines 186-189 / 197-201. -/
inductive PwdErr
  | valueErr (msg : String)
  | runtimeWarn (msg : String)
deriving DecidableEq

/-- Message text of xrd.py lines 199-201 (whitespace normalised). -/
def symmetryNotFoundMsg : String :=
  "Required symmetry not found - No selection rules will be applied to XRD powder spectrum"

/-- powder_peaks on the latt_abc branch (xrd.py lines 190-255).  `shapeOk`
models the latt_abc.shape == (2, 3) test of line 192; `lookup` models
xrdsel.get_sel_rule_from_international, a collaborator outside the two
source files, returning an error exactly when the table lookup raises
ValueError.  On lookup failure the source executes
`raise RuntimeWarning(...)` inside the except branch (lines 197-201),
which propagates: the function aborts and `sel_rule` is never bound. -/
def powder_peaks_latt (digits : ℕ) (lambdax : ℚ) (invdOf : ℤ × ℤ × ℤ → ℚ)
    (theta2degOf : ℚ → ℚ) (bounds : ℕ × ℕ × ℕ)
    (lookup : ℤ → ℤ → Except Unit (ℤ × ℤ × ℤ → Bool))
    (shapeOk : Bool) (n o : ℤ) : Except PwdErr XraySpectrum :=
  if shapeOk = false then
    Except.error (PwdErr.valueErr "Invalid argument latt_abc passed to xrd_pwd_peaks")
  else
    match lookup n o with
    | Except.error _ => Except.error (PwdErr.runtimeWarn symmetryNotFoundMsg)
    | Except.ok sel =>
        Except.ok (powder_peaks_core digits lambdax invdOf theta2degOf sel bounds)

/-- The plain data attributes set by XRDCalculator.__init__
(xrd.py lines 69-71). -/
structure XRDCalcConfig where
  lambdax : ℚ
  theta2_digits : ℕ
  baseline : ℚ
deriving DecidableEq

/-- XRDCalculator.__init__ attribute assignments, verbatim from xrd.py
lines 69-71: line 70 reads `self.theta2_digits = 6`, so the constructor
argument `theta2_digits` is dropped and the literal 6 stored. -/
def XRDCalculator_init (lambdax : ℚ) (theta2_digits : ℕ) (baseline : ℚ) : XRDCalcConfig :=
  { lambdax := lambdax, theta2_digits := 6, baseline := baseline }

/-- powder_peaks as the method of a configured calculator: the rounding
precision it applies is the stored `theta2_digits` field (xrd.py
line 238) and the wavelength the stored `lambdax`. -/
def XRDCalculator_powder_peaks (c : XRDCalcConfig) (invdOf : ℤ × ℤ × ℤ → ℚ)
    (theta2degOf : ℚ → ℚ) (selRule : ℤ × ℤ × ℤ → Bool) (bounds : ℕ × ℕ × ℕ) : XraySpectrum :=
  powder_peaks_core c.theta2_digits c.lambdax invdOf theta2degOf selRule bounds

/-- What inspect.getargspec reports about a Python callable: the number of
declared positional parameters and how many of them carry defaults.
This is the whole interface the arity checks consume (xrd.py lines
126-129 and 304). -/
structure PyArgSpec where
  nargs : ℕ
  ndefaults : ℕ
deriving DecidableEq

/-- The peak function stored on the calculator: the default Gaussian of
line 467, or a user-supplied callable (identified by its argspec). -/
inductive StoredPeakFunc
  | gauss
  | user (f : PyArgSpec)
deriving DecidableEq

/-- The two attributes set_peak_func assigns (xrd.py lines 144-145). -/
structure CalcState where
  peak_func : StoredPeakFunc
  peak_f_args : List ℚ
deriving DecidableEq

/-- XRDCalculator.set_peak_func (xrd.py lines 91-145), embedded as a state
transformer with Python raise semantics: an error value carries the
receiver state as it stands at the moment of the raise.  Both raises
(lines 131 and 133) occur before the attribute assignments of lines
144-145, so the carried state is the unmodified input state.  The ℕ
subtraction of line 132 is computed in ℤ, matching Python integers. -/
def set_peak_func (c : CalcState) (pf : Option PyArgSpec) (pfa : Option (List ℚ)) :
    Except (String × CalcState) CalcState :=
  let args := match pfa with
    | none => match pf with
      | some _ => []
      | none => [(1 : ℚ) / 10]
    | some a => a
  match pf with
  | some f =>
    if f.nargs < 2 then
      Except.error ("Invalid peak_func passed to set_peak_func", c)
    else if (f.nargs : ℤ) - (2 + (f.ndefaults : ℤ)) > (args.length : ℤ) then
      Except.error ("Invalid number of peak_f_args passed to set_peak_func", c)
    else
      Except.ok { peak_func := StoredPeakFunc.user f, peak_f_args := args }
  | none =>
      Except.ok { peak_func := StoredPeakFunc.gauss, peak_f_args := args.take 1 }

/-- The peak-function acceptance branch of xrd_spec_simul (xrd.py lines
303-313).  For a user function it tests only
`len(getargspec(peak_func).args) > 2 + len(peak_f_args)` (line 304):
defaults are ignored and there is no fewer-than-2-parameters test.
With a user function and peak_f_args left at its None default, line 304
evaluates len(None) and fails with a TypeError, embedded as an error. -/
def xrd_spec_simul_check (pf : Option PyArgSpec) (pfa : Option (List ℚ)) :
    Except String (StoredPeakFunc × List ℚ) :=
  match pf with
  | some f =>
    match pfa with
    | none => Except.error "TypeError: object of type NoneType has no len()"
    | some a =>
      if (f.nargs : ℤ) > 2 + (a.length : ℤ) then
        Except.error "Invalid peak_func passed to xrd_spec_simul"
      else
        Except.ok (StoredPeakFunc.user f, a)
  | none =>
    match pfa with
    | none => Except.ok (StoredPeakFunc.gauss, [(1 : ℚ) / 10])
    | some a => Except.ok (StoredPeakFunc.gauss, a.take 1)

/-- Did the call succeed (no exception)? -/
def isOkE {e a : Type} : Except e a → Bool
  | Except.ok _ => true
  | Except.error _ => false

/-- The acceptance rule as the specification states it for both entry
points: accept iff the function has at least 2 positional parameters and
its required extra parameters (those without defaults, beyond the first
two) do not exceed the supplied extra arguments. -/
def spec_arity_accept (f : PyArgSpec) (supplied : List ℚ) : Bool :=
  decide (2 ≤ f.nargs) &&
    decide ((f.nargs : ℤ) - (2 + (f.ndefaults : ℤ)) ≤ (supplied.length : ℤ))

/-- The calculator state after XRDCalculator() with all defaults: the
Gaussian with width argument [0.1]. -/
def calcDefault : CalcState :=
  { peak_func := StoredPeakFunc.gauss, peak_f_args := [(1 : ℚ) / 10] }

/-- np.amax of a list (junk value 0 on the empty list, where numpy raises;
every use below is on a nonempty list). -/
def npAmax (l : List ℚ) : ℚ := l.foldl max (l.headD 0)

/-- The per-peak contribution matrix of xrd_spec_simul (xrd.py lines
316-318): row i, column j holds intensity[j] * peak_func(axis[i],
theta2[j]).  The peak function with its extra arguments already applied
enters as the parameter `pf`. -/
def simulPeaksM (pf : ℚ → ℚ → ℚ) (axis centers ints : List ℚ) : List (List ℚ) :=
  axis.map (fun x => List.zipWith (fun c intens => intens * pf x c) centers ints)

/-- The aggregate simulated spectrum of xrd.py line 320: row sums of the
contribution matrix plus the baseline. -/
def simulSpecM (pf : ℚ → ℚ → ℚ) (axis centers ints : List ℚ) (baseline : ℚ) : List ℚ :=
  (simulPeaksM pf axis centers ints).map (fun row => row.sum + baseline)

/-- _Rwp_eval (xrd.py lines 444-452): weights 1/obs, statistic
sqrt(sum(w*(obs-calc)^2) / sum(w*obs^2)).  `sq` stands for np.sqrt,
which leaves ℚ; ℚ division is total with x/0 = 0 where numpy would
produce inf/nan from a zero observation. -/
def rwpEval (sq : ℚ → ℚ) (calcI obs : List ℚ) : ℚ :=
  sq ((List.zipWith (fun o s => 1 / o * (o - s) ^ 2) obs calcI).sum /
      (obs.map (fun o => 1 / o * o ^ 2)).sum)

/-- Number of columns of the contribution matrix (the number of peaks). -/
def numCols (P : List (List ℚ)) : ℕ := (P.headD []).length

/-- np.sum(simul_peaks, axis=0) at column j (xrd.py line 458). -/
def npSumCol (P : List (List ℚ)) (j : ℕ) : ℚ := (P.map (fun row => row.getD j 0)).sum

/-- _leBail_rescale_I (xrd.py lines 455-464).  Line 460 replaces a column
sum that is not positive by np.inf, which sends the final quotient to 0;
the embedding returns 0 directly in that branch.  The numerator of line
461 divides each term by simul_spec[i] with no guard; ℚ division is
total with x/0 = 0, so the exact places where the numpy code divides by
zero are tracked separately by `rescale_div_free`. -/
def leBail_rescale_I (P : List (List ℚ)) (calcI obs : List ℚ) : List ℚ :=
  (List.range (numCols P)).map (fun j =>
    let num := ((List.range P.length).map
      (fun i => obs.getD i 0 * (P.getD i []).getD j 0 / calcI.getD i 0)).sum
    let s := npSumCol P j
    if 0 < s then num / s else 0)

/-- The divisions _leBail_rescale_I performs have no zero divisor.  The
expression of xrd.py line 461 divides elementwise by simul_spec[i] for
every row i and column j (no division happens when there are no
columns); the outer divisor of line 462 is already nonzero by the
np.where of line 460.  So the call is division-by-zero free exactly when
the matrix has no columns or every calc entry is nonzero. -/
def rescale_div_free (P : List (List ℚ)) (calcI : List ℚ) : Prop :=
  numCols P = 0 ∨ ∀ i < P.length, calcI.getD i 0 ≠ 0

/-- The relative Rwp change computed at xrd.py line 432:
abs((rwp - rwp0) / rwp) — the divisor is the freshly computed rwp. -/
def leBail_delta_rwp (rwp0 rwp : ℚ) : ℚ := |(rwp - rwp0) / rwp|

/-- The convergence measure as the specification states it: the absolute
Rwp change divided by the previous Rwp. -/
def spec_delta_rwp (rwp0 rwp : ℚ) : ℚ := |rwp - rwp0| / rwp0

/-- The refinement loop state of xrd_leBail_Ifit: the local array
peaks_int, the intensity buffer xint of the clone (target of the np.copyto of
line 423), the last simulation, the reference value rwp0, the last
computed rwp (none until the loop body has run once, modelling the
unbound local of line 437), and the list of payloads written by
np.copyto in order. -/
structure LeBailState where
  peaks_int : List ℚ
  xint : List ℚ
  simul_spec : List ℚ
  simul_peaks : List (List ℚ)
  rwp0 : ℚ
  rwp : Option ℚ
  writes : List (List ℚ)
deriving DecidableEq

/-- One iteration body of the loop at xrd.py lines 418-430: rescale
peaks_int multiplicatively (line 420), copy it into the intensity of the clone (line 423), re-simulate (lines 425-428), recompute rwp (line
430).  rwp0 is not touched here: line 435 updates it only on the
continue path. -/
def leBailBody (sq : ℚ → ℚ) (pf : ℚ → ℚ → ℚ) (baseline : ℚ)
    (centers axis obs : List ℚ) (s : LeBailState) : LeBailState :=
  let pi2 := List.zipWith (fun a b => a * b) s.peaks_int
    (leBail_rescale_I s.simul_peaks s.simul_spec obs)
  { peaks_int := pi2
    xint := pi2
    simul_spec := simulSpecM pf axis centers pi2 baseline
    simul_peaks := simulPeaksM pf axis centers pi2
    rwp0 := s.rwp0
    rwp := some (rwpEval sq (simulSpecM pf axis centers pi2 baseline) obs)
    writes := s.writes ++ [pi2] }

/-- The for loop of xrd.py lines 418-435 with fuel range(max_iter): run the
body, break when the relative change of line 432 is below rwp_tol (line
433-434), otherwise set rwp0 to the new rwp (line 435) and continue. -/
def leBailLoop (sq : ℚ → ℚ) (pf : ℚ → ℚ → ℚ) (baseline : ℚ)
    (centers axis obs : List ℚ) (tol : ℚ) : ℕ → LeBailState → LeBailState
  | 0, s => s
  | Nat.succ n, s =>
    let s2 := leBailBody sq pf baseline centers axis obs s
    if leBail_delta_rwp s.rwp0 (s2.rwp.getD 0) < tol then s2
    else leBailLoop sq pf baseline centers axis obs tol n { s2 with rwp0 := s2.rwp.getD 0 }

/-- The state of xrd_leBail_Ifit just before the loop (xrd.py lines
399-415).  Line 407 builds the fresh local array
peaks_int = xpeaks.intensity*0 + amax(int_axis)/4 without storing it
into the clone, so the first simulation of line 410 and the rwp0 of line
415 are computed from the intensity xint0 of the clone, which still holds the values given by the caller. -/
def leBail_init_state (sq : ℚ → ℚ) (pf : ℚ → ℚ → ℚ) (baseline : ℚ)
    (centers xint0 axis obs : List ℚ) : LeBailState :=
  { peaks_int := xint0.map (fun x => x * 0 + npAmax obs / 4)
    xint := xint0
    simul_spec := simulSpecM pf axis centers xint0 baseline
    simul_peaks := simulPeaksM pf axis centers xint0
    rwp0 := rwpEval sq (simulSpecM pf axis centers xint0 baseline) obs
    rwp := none
    writes := [] }

/-- The intensity initialisation the specification states: every peak set
to max(experimental intensity)/4 before the first simulation. -/
def spec_initial_intensity (xint0 obs : List ℚ) : List ℚ :=
  xint0.map (fun _ => npAmax obs / 4)

/-- The numerical core of xrd_leBail_Ifit (xrd.py lines 399-437): the
Python range(max_iter) runs max_iter.toNat iterations (none when
max_iter <= 0).  The returned state carries the final intensity of the clone,
the final simulation, and the final rwp when one was ever assigned. -/
def xrd_leBail_core (sq : ℚ → ℚ) (pf : ℚ → ℚ → ℚ) (baseline : ℚ)
    (centers xint0 axis obs : List ℚ) (tol : ℚ) (max_iter : ℤ) : LeBailState :=
  leBailLoop sq pf baseline centers axis obs tol max_iter.toNat
    (leBail_init_state sq pf baseline centers xint0 axis obs)

/-- xrd_leBail_Ifit at the heap level.  The store is a list of intensity
arrays; the peak set of the caller holds the array at index xid.  Line 400
(copy.deepcopy) allocates a fresh cell seeded with the values of the caller —
its index cloneId = length of the store, distinct from every existing
index — and every np.copyto of the run (line 423, recorded in order in
the writes field of the core) targets that fresh cell only.  Returns the
final store, the index of the clone (the intensity array of the returned peak set), and the final state of the core. -/
def xrd_leBail_store (sigma : List (List ℚ)) (xid : ℕ) (sq : ℚ → ℚ) (pf : ℚ → ℚ → ℚ)
    (baseline : ℚ) (centers axis obs : List ℚ) (tol : ℚ) (max_iter : ℤ) :
    List (List ℚ) × ℕ × LeBailState :=
  let orig := sigma.getD xid []
  let cloneId := sigma.length
  let sigma1 := sigma ++ [orig]
  let fin := xrd_leBail_core sq pf baseline centers orig axis obs tol max_iter
  (fin.writes.foldl (fun t v => t.set cloneId v) sigma1, cloneId, fin)

/-- C8: every XraySpectrum produced by powder_peaks has a strictly
ascending theta2 list, hence no duplicate angles at the applied rounding
precision, and its five sequence-valued fields all have the same length. -/
theorem powder_peaks_invariants (digits : ℕ) (lambdax : ℚ) (invdOf : ℤ × ℤ × ℤ → ℚ)
    (theta2degOf : ℚ → ℚ) (selRule : ℤ × ℤ × ℤ → Bool) (bounds : ℕ × ℕ × ℕ) :
    List.Sorted (· < ·)
        (powder_peaks_core digits lambdax invdOf theta2degOf selRule bounds).theta2 ∧
    (powder_peaks_core digits lambdax invdOf theta2degOf selRule bounds).hkl.length =
      (powder_peaks_core digits lambdax invdOf theta2degOf selRule bounds).theta2.length ∧
    (powder_peaks_core digits lambdax invdOf theta2degOf selRule bounds).hkl_unique.length =
      (powder_peaks_core digits lambdax invdOf theta2degOf selRule bounds).theta2.length ∧
    (powder_peaks_core digits lambdax invdOf theta2degOf selRule bounds).invd.length =
      (powder_peaks_core digits lambdax invdOf theta2degOf selRule bounds).theta2.length ∧
    (powder_peaks_core digits lambdax invdOf theta2degOf selRule bounds).intensity.length =
      (powder_peaks_core digits lambdax invdOf theta2degOf selRule bounds).theta2.length := by
  refine ⟨?_, ?_, ?_, ?_, ?_⟩
  · simpa [powder_peaks_core, pwdVals] using
      Finset.sort_sorted_lt
        (pwdRounded digits lambdax invdOf theta2degOf selRule bounds).toFinset
  all_goals simp [powder_peaks_core, pwdFirstIdx]

/-- C2 counterexample: with a failing selection-rule lookup, powder_peaks
does not return a peak set computed with an accept-all predicate — it
aborts with the RuntimeWarning raised at xrd.py lines 197-201. -/
theorem powder_peaks_symfail_aborts_cex :
    powder_peaks_latt 6 1 (fun _ => 1) (fun q => q) (0, 0, 0)
        (fun _ _ => Except.error ()) true 1 1
      = Except.error (PwdErr.runtimeWarn symmetryNotFoundMsg) := rfl

/-- C2 amended: whenever the selection-rule lookup fails, powder_peaks
raises a RuntimeWarning exception and aborts the enumeration; no
accept-all fallback is applied and no peak set is returned. -/
theorem powder_peaks_symfail_raises (digits : ℕ) (lambdax : ℚ) (invdOf : ℤ × ℤ × ℤ → ℚ)
    (theta2degOf : ℚ → ℚ) (bounds : ℕ × ℕ × ℕ)
    (lookup : ℤ → ℤ → Except Unit (ℤ × ℤ × ℤ → Bool)) (n o : ℤ)
    (h : lookup n o = Except.error ()) :
    powder_peaks_latt digits lambdax invdOf theta2degOf bounds lookup true n o
      = Except.error (PwdErr.runtimeWarn symmetryNotFoundMsg) := by
  simp [powder_peaks_latt, h]

/-- Witness for the amended C2 theorem at a concrete failing lookup. -/
theorem powder_peaks_symfail_raises_witness :
    (fun (_ _ : ℤ) => (Except.error () : Except Unit (ℤ × ℤ × ℤ → Bool))) 2 3
        = Except.error () ∧
    powder_peaks_latt 6 2 (fun _ => 1) (fun q => q) (0, 0, 0)
        (fun _ _ => Except.error ()) true 2 3
      = Except.error (PwdErr.runtimeWarn symmetryNotFoundMsg) :=
  ⟨rfl, powder_peaks_symfail_raises 6 2 (fun _ => 1) (fun q => q) (0, 0, 0)
    (fun _ _ => Except.error ()) 2 3 rfl⟩

/-- C5: XRDCalculator.__init__ stores the literal 6 instead of its
theta2_digits argument (xrd.py line 70), so a calculator built with
theta2_digits = 3 still rounds powder-peak angles to 6 digits: on a
single reflection whose unrounded angle is 0.1234567 degrees the
produced theta2 is 0.123457, not the 0.123 the configured precision
would give. -/
theorem theta2_digits_ignored :
    (XRDCalculator_init 1 3 0).theta2_digits = 6 ∧
    (XRDCalculator_powder_peaks (XRDCalculator_init 1 3 0) (fun _ => 1 / 2)
        (fun _ => 1234567 / 10000000) (fun _ => true) (0, 0, 0)).theta2
      = [123457 / 1000000] ∧
    roundTo 3 (1234567 / 10000000) = 123 / 1000 ∧
    (123457 / 1000000 : ℚ) ≠ 123 / 1000 := by
  refine ⟨rfl, ?_, by norm_num [roundTo, round_eq], by norm_num⟩
  norm_num [XRDCalculator_powder_peaks, XRDCalculator_init, powder_peaks_core, pwdVals,
    pwdRounded, pwdSelected, hklGrid, rangeSym, List.filter, roundTo, round_eq]

/-- C6 counterexample: a function with 3 positional parameters of which 1
has a default, given no extra arguments, is accepted by set_peak_func
(its required extra count is 0) but rejected by xrd_spec_simul, whose
check at xrd.py line 304 ignores defaults — the two entry points do not
apply the same acceptance rule. -/
theorem peak_func_rules_differ_cex :
    isOkE (set_peak_func calcDefault (some { nargs := 3, ndefaults := 1 }) (some [])) = true ∧
    isOkE (xrd_spec_simul_check (some { nargs := 3, ndefaults := 1 }) (some [])) = false :=
  ⟨rfl, rfl⟩

/-- C6 amended: set_peak_func accepts a user function exactly under the
claimed rule (at least 2 positional parameters and required extras not
exceeding the supplied arguments), while xrd_spec_simul accepts exactly
when the total positional parameter count is at most 2 plus the number
of supplied arguments, ignoring defaults and without the minimum-arity
test. -/
theorem peak_func_acceptance_rules (c : CalcState) (f : PyArgSpec) (args : List ℚ) :
    (isOkE (set_peak_func c (some f) (some args)) = true ↔ spec_arity_accept f args = true) ∧
    (isOkE (xrd_spec_simul_check (some f) (some args)) = true ↔
      (f.nargs : ℤ) ≤ 2 + (args.length : ℤ)) := by
  constructor
  · simp only [set_peak_func, spec_arity_accept]
    by_cases h1 : f.nargs < 2
    · simp [h1, isOkE] <;> omega
    · by_cases h2 : (f.nargs : ℤ) - (2 + (f.ndefaults : ℤ)) > (args.length : ℤ)
      · simp [h1, h2, isOkE] <;> omega
      · simp [h1, h2, isOkE] <;> omega
  · simp only [xrd_spec_simul_check]
    by_cases h : (f.nargs : ℤ) > 2 + (args.length : ℤ)
    · simp [h, isOkE] <;> omega
    · simp [h, isOkE] <;> omega

/-- C10: set_peak_func is atomic on error — every raise happens before the
attribute assignments of xrd.py lines 144-145, so the state carried out
by the exception is exactly the input state. -/
theorem set_peak_func_atomic (c : CalcState) (pf : Option PyArgSpec) (pfa : Option (List ℚ))
    (m : String) (c2 : CalcState)
    (h : set_peak_func c pf pfa = Except.error (m, c2)) : c2 = c := by
  cases pf with
  | none => simp [set_peak_func] at h
  | some f =>
    cases pfa with
    | none =>
      simp only [set_peak_func] at h
      split at h
      · cases h
        rfl
      · split at h
        · cases h
          rfl
        · cases h
    | some a =>
      simp only [set_peak_func] at h
      split at h
      · cases h
        rfl
      · split at h
        · cases h
          rfl
        · cases h

/-- Witness for the atomicity theorem: a 1-parameter function is rejected
and the carried state is the original calculator state. -/
theorem set_peak_func_atomic_witness :
    set_peak_func calcDefault (some { nargs := 1, ndefaults := 0 }) none
      = Except.error ("Invalid peak_func passed to set_peak_func", calcDefault) ∧
    calcDefault = calcDefault :=
  ⟨rfl, set_peak_func_atomic calcDefault (some { nargs := 1, ndefaults := 0 }) none
    "Invalid peak_func passed to set_peak_func" calcDefault rfl⟩

/-- Projection of a range-map list at an in-range index. -/
theorem getD_range_map (n j : ℕ) (f : ℕ → ℚ) (hj : j < n) :
    ((List.range n).map f).getD j 0 = f j := by
  rw [List.getD_eq_getElem?_getD]
  simp [List.getElem?_map, List.getElem?_range, hj]

/-- C1: line 407 of xrd.py computes the uniform starting array
peaks_int = max(obs)/4 but never stores it into the clone before the
first simulation of line 410, so the initial simulated spectrum (and the
rwp0 the first rescale is judged against) is computed from the
caller-supplied intensities.  Evaluated at the failing input of a peak
set with caller intensity [0] (the value powder_peaks always produces)
and experimental intensities [4]: the first simulated spectrum is [0],
while simulating from the uniform guess required by the specification
would give [1]. -/
theorem leBail_first_simul_uses_caller_intensities :
    (leBail_init_state id (fun _ _ => 1) 0 [0] [0] [0] [4]).simul_spec = [0] ∧
    (leBail_init_state id (fun _ _ => 1) 0 [0] [0] [0] [4]).peaks_int = [1] ∧
    simulSpecM (fun _ _ => 1) [0] [0] (spec_initial_intensity [0] [4]) 0 = [1] ∧
    (leBail_init_state id (fun _ _ => 1) 0 [0] [0] [0] [4]).simul_spec ≠
      simulSpecM (fun _ _ => 1) [0] [0] (spec_initial_intensity [0] [4]) 0 := by
  refine ⟨?_, ?_, ?_, ?_⟩ <;>
    norm_num [leBail_init_state, simulSpecM, simulPeaksM, spec_initial_intensity, npAmax]

/-- C3 counterexample: with previous rwp 1, new rwp 3 and tolerance 1, the
relative change computed at xrd.py line 432 is abs((3-1)/3) = 2/3 < 1,
so the loop breaks, while the claimed criterion abs(3-1)/1 = 2 is not
below the tolerance — the divisor used by the loop is the new rwp, not the
previous one. -/
theorem leBail_delta_denominator_cex :
    leBail_delta_rwp 1 3 < 1 ∧ ¬ spec_delta_rwp 1 3 < 1 := by
  constructor <;> norm_num [leBail_delta_rwp, spec_delta_rwp, abs_of_nonneg]

/-- C3 amended: each loop iteration stops (converged) exactly when
abs(rwp_new - rwp_previous) divided by rwp_new (not rwp_previous) is
below rwp_tol; otherwise rwp0 is replaced by the new rwp and the
iteration continues until max_iter iterations have run. -/
theorem leBailLoop_stop_rule (sq : ℚ → ℚ) (pf : ℚ → ℚ → ℚ) (baseline : ℚ)
    (centers axis obs : List ℚ) (tol : ℚ) (n : ℕ) (s : LeBailState) :
    leBailLoop sq pf baseline centers axis obs tol (n + 1) s =
      if leBail_delta_rwp s.rwp0
          ((leBailBody sq pf baseline centers axis obs s).rwp.getD 0) < tol
      then leBailBody sq pf baseline centers axis obs s
      else leBailLoop sq pf baseline centers axis obs tol n
        { leBailBody sq pf baseline centers axis obs s with
            rwp0 := (leBailBody sq pf baseline centers axis obs s).rwp.getD 0 } := rfl

/-- C4 counterexample: at the contribution matrix [[1]] with calculated
spectrum [0], the numerator of xrd.py line 461 divides the (single)
matrix element by calc[0] = 0 — the calc[i] = 0 case is not guarded, so
division by zero does occur for some inputs. -/
theorem rescale_div_free_cex : ¬ rescale_div_free [[1]] [0] := by
  intro h
  rcases h with h | h
  · simp [numCols] at h
  · exact h 0 (by simp) rfl

/-- C4 amended: the rescale factor follows the claimed formula and the
column-sum guard is present — when the column sum of the contribution
matrix is not positive the factor is 0 and the outer division is safe —
but the divisions by calc[i] in the numerator are unguarded: the call is
division-by-zero free only under the extra assumption that every calc
entry is nonzero (or the matrix has no columns). -/
theorem leBail_rescale_guards (P : List (List ℚ)) (calcI obs : List ℚ) (j : ℕ)
    (hj : j < numCols P) :
    (¬ 0 < npSumCol P j → (leBail_rescale_I P calcI obs).getD j 0 = 0) ∧
    (0 < npSumCol P j → (leBail_rescale_I P calcI obs).getD j 0 =
      ((List.range P.length).map
        (fun i => obs.getD i 0 * (P.getD i []).getD j 0 / calcI.getD i 0)).sum /
        npSumCol P j) ∧
    ((∀ i < P.length, calcI.getD i 0 ≠ 0) → rescale_div_free P calcI) := by
  have hg : (leBail_rescale_I P calcI obs).getD j 0 =
      (if 0 < npSumCol P j then
        ((List.range P.length).map
          (fun i => obs.getD i 0 * (P.getD i []).getD j 0 / calcI.getD i 0)).sum /
          npSumCol P j
      else 0) := by
    unfold leBail_rescale_I
    exact getD_range_map _ _ _ hj
  refine ⟨fun h => ?_, fun h => ?_, fun h => Or.inr h⟩
  · rw [hg, if_neg h]
  · rw [hg, if_pos h]

/-- Witness for the rescale guard theorem at the one-point matrix [[1]]
with calc [2] and obs [3]. -/
theorem leBail_rescale_guards_witness :
    (0 : ℕ) < numCols [[(1 : ℚ)]] ∧
    (0 < npSumCol [[(1 : ℚ)]] 0 →
      (leBail_rescale_I [[(1 : ℚ)]] [2] [3]).getD 0 0 =
        ((List.range ([[(1 : ℚ)]] : List (List ℚ)).length).map
          (fun i => ([3] : List ℚ).getD i 0 *
            (([[(1 : ℚ)]] : List (List ℚ)).getD i []).getD 0 0 /
            ([2] : List ℚ).getD i 0)).sum / npSumCol [[(1 : ℚ)]] 0) :=
  ⟨by decide, (leBail_rescale_guards [[(1 : ℚ)]] [2] [3] 0 (by decide)).2.1⟩

/-- Folding writes into one heap cell leaves every other cell unchanged. -/
theorem foldl_set_getD_ne (cid xid : ℕ) (hne : xid ≠ cid) :
    ∀ (ws : List (List ℚ)) (t : List (List ℚ)),
      (ws.foldl (fun u v => u.set cid v) t).getD xid [] = t.getD xid [] := by
  intro ws
  induction ws with
  | nil => intro t; rfl
  | cons w ws ih =>
    intro t
    rw [List.foldl_cons, ih]
    rw [List.getD_eq_getElem?_getD, List.getD_eq_getElem?_getD,
      List.getElem?_set_ne (fun he => hne he.symm)]

/-- C7: xrd_leBail_Ifit never modifies the intensity array of the caller.  The
deepcopy of xrd.py line 400 allocates a fresh cell and every np.copyto
of the run (line 423) targets that cell, so after the call the array held by the peak set of the caller is exactly what it was before. -/
theorem leBail_store_preserves_caller (sigma : List (List ℚ)) (xid : ℕ) (sq : ℚ → ℚ)
    (pf : ℚ → ℚ → ℚ) (baseline : ℚ) (centers axis obs : List ℚ) (tol : ℚ) (max_iter : ℤ)
    (h : xid < sigma.length) :
    ((xrd_leBail_store sigma xid sq pf baseline centers axis obs tol max_iter).1).getD xid []
      = sigma.getD xid [] := by
  unfold xrd_leBail_store
  rw [foldl_set_getD_ne sigma.length xid (Nat.ne_of_lt h)]
  rw [List.getD_eq_getElem?_getD, List.getD_eq_getElem?_getD,
    List.getElem?_append_left h]

/-- Witness: a one-cell store holding the caller array [5] is unchanged at
index 0 by a run of one refinement iteration. -/
theorem leBail_store_preserves_caller_witness :
    (0 : ℕ) < ([[(5 : ℚ)]] : List (List ℚ)).length ∧
    ((xrd_leBail_store [[(5 : ℚ)]] 0 id (fun _ _ => 1) 0 [0] [0] [1] 1 1).1).getD 0 []
      = ([[(5 : ℚ)]] : List (List ℚ)).getD 0 [] :=
  ⟨by decide, leBail_store_preserves_caller [[(5 : ℚ)]] 0 id (fun _ _ => 1) 0 [0] [0] [1] 1 1
    (by decide)⟩

/-- A state whose rwp is already assigned keeps it assigned through any
number of further iterations. -/
theorem leBailLoop_rwp_isSome_of (sq : ℚ → ℚ) (pf : ℚ → ℚ → ℚ) (baseline : ℚ)
    (centers axis obs : List ℚ) (tol : ℚ) :
    ∀ (n : ℕ) (s : LeBailState), s.rwp.isSome = true →
      ((leBailLoop sq pf baseline centers axis obs tol n s).rwp).isSome = true := by
  intro n
  induction n with
  | zero => intro s h; exact h
  | succ k ih =>
    intro s _
    rw [leBailLoop]
    split
    · rfl
    · exact ih _ rfl

/-- After at least one iteration the loop state always carries an rwp. -/
theorem leBailLoop_rwp_isSome_succ (sq : ℚ → ℚ) (pf : ℚ → ℚ → ℚ) (baseline : ℚ)
    (centers axis obs : List ℚ) (tol : ℚ) (n : ℕ) (s : LeBailState) :
    ((leBailLoop sq pf baseline centers axis obs tol (n + 1) s).rwp).isSome = true := by
  rw [leBailLoop]
  split
  · rfl
  · exact leBailLoop_rwp_isSome_of sq pf baseline centers axis obs tol n _ rfl

/-- C9: the loop body of xrd.py lines 418-435 is the only place the local
rwp is ever assigned, and range(max_iter) is empty for max_iter <= 0, so
the rwp returned at line 437 is defined exactly when max_iter >= 1; for
max_iter <= 0 the return statement hits an unbound local (modelled here
as rwp = none) instead of producing a best-effort result. -/
theorem leBail_rwp_none_iff (sq : ℚ → ℚ) (pf : ℚ → ℚ → ℚ) (baseline : ℚ)
    (centers xint0 axis obs : List ℚ) (tol : ℚ) (max_iter : ℤ) :
    (xrd_leBail_core sq pf baseline centers xint0 axis obs tol max_iter).rwp = none ↔
      max_iter ≤ 0 := by
  unfold xrd_leBail_core
  constructor
  · intro hnone
    by_contra hpos
    have h0 : max_iter.toNat ≠ 0 := fun hz => hpos (Int.toNat_eq_zero.mp hz)
    obtain ⟨k, hk⟩ := Nat.exists_eq_succ_of_ne_zero h0
    rw [hk] at hnone
    have := leBailLoop_rwp_isSome_succ sq pf baseline centers axis obs tol k
      (leBail_init_state sq pf baseline centers xint0 axis obs)
    rw [hnone] at this
    exact Bool.noConfusion this
  · intro hle
    rw [Int.toNat_of_nonpos hle]
    rfl
